import Mathlib

/-!
# Verification of the StableFluids simulation core

Shallow embedding of `src/examples/StableFluids/StableFluids.tsx` (plus its
`params.ts` / `kernels.ts` companions): the double-buffered grid fields, the
per-cell stage kernels, and the per-frame scheduler (`loop`).  GPU `f16`/`f32`
arithmetic is idealised over `ℚ`; texture reads/writes become function
application/update on total fields `ℤ × ℤ → ℚ`.
-/

namespace StableFluids

/-- A grid coordinate (texel position). -/
abbrev Coord := ℤ × ℤ

/-- A scalar field (one texture channel). -/
abbrev Field := Coord → ℚ

/-- A 2-vector field (velocity / force textures). -/
abbrev VField := Coord → ℚ × ℚ

/-- Constant `FORCE_SCALE = 0.6` from `params.ts`. -/
def FORCE_SCALE : ℚ := 3 / 5

/-- Constant `INK_AMOUNT = 0.02` from `params.ts`. -/
def INK_AMOUNT : ℚ := 1 / 50

/-- Constant `SIMULATION_QUALITY = 0.2` from `params.ts`. -/
def SIMULATION_QUALITY : ℚ := 1 / 5

/-- Grid sizing `simWidth = Math.max(1, Math.floor(width * SIMULATION_QUALITY))` in
`createScene` (same formula for `simHeight`). -/
def simDim (x : ℤ) : ℤ := max 1 (Int.floor ((x : ℚ) * SIMULATION_QUALITY))

/-- The brush radius written to `brushParamBuffer`: `simWidth * 0.1`. -/
def brushRadius (W : ℕ) : ℚ := (W : ℚ) * (1 / 10)

/-- The JS loop `for (let i = 0; i < k; i++)` runs `max(0,k)` iterations. -/
def jacobiRuns (k : ℤ) : ℕ := k.toNat

/-- WGSL `clamp` on rationals: `min(max(e, lo), hi)`. -/
def clampQ (lo hi v : ℚ) : ℚ := min (max v lo) hi

/-- WGSL `clamp` on integers: `min(max(e, lo), hi)`. -/
def clampZ (lo hi v : ℤ) : ℤ := min (max v lo) hi

/-- Clamp a coordinate into the `[0, W-1] × [0, H-1]` grid rectangle. -/
def clampCoord (W H : ℕ) (c : Coord) : Coord :=
  (clampZ 0 ((W : ℤ) - 1) c.1, clampZ 0 ((H : ℤ) - 1) c.2)

/-- Helper `getNeighbors` from `kernels.ts`: the four offsets
`(-1,0), (0,-1), (1,0), (0,1)` (left, up, right, down), each added to the
cell and clamped into `[0, bounds-1]`. -/
def getNeighbors (W H : ℕ) (c : Coord) : Coord × Coord × Coord × Coord :=
  (clampCoord W H (c.1 - 1, c.2), clampCoord W H (c.1, c.2 - 1),
   clampCoord W H (c.1 + 1, c.2), clampCoord W H (c.1, c.2 + 1))

/-- A cell is in the grid when `0 ≤ x < W` and `0 ≤ y < H` (the compute
dispatch writes exactly these texels). -/
def inGrid (W H : ℕ) (c : Coord) : Prop :=
  0 ≤ c.1 ∧ c.1 < (W : ℤ) ∧ 0 ≤ c.2 ∧ c.2 < (H : ℤ)

instance (W H : ℕ) (c : Coord) : Decidable (inGrid W H c) := by
  unfold inGrid; infer_instance

/-- Texel fetch with clamp-to-edge addressing (the `linSampler` address mode). -/
def texelClamp (W H : ℕ) (f : Field) (x y : ℤ) : ℚ :=
  f (clampCoord W H (x, y))

/-- WebGPU bilinear filtering at a normalized coordinate `uv` with a
clamp-to-edge sampler: un-normalize to `uv·dims − 0.5`, take the floor cell
and fractional weights, and blend the four surrounding texels. -/
def bilinearSample (W H : ℕ) (f : Field) (uv : ℚ × ℚ) : ℚ :=
  let t : ℚ × ℚ := (uv.1 * (W : ℚ) - 1/2, uv.2 * (H : ℚ) - 1/2)
  let i : ℤ × ℤ := (⌊t.1⌋, ⌊t.2⌋)
  let fr : ℚ × ℚ := (t.1 - (i.1 : ℚ), t.2 - (i.2 : ℚ))
  let t00 := texelClamp W H f i.1 i.2
  let t10 := texelClamp W H f (i.1 + 1) i.2
  let t01 := texelClamp W H f i.1 (i.2 + 1)
  let t11 := texelClamp W H f (i.1 + 1) (i.2 + 1)
  (1 - fr.1) * (1 - fr.2) * t00 + fr.1 * (1 - fr.2) * t10 +
    (1 - fr.1) * fr.2 * t01 + fr.1 * fr.2 * t11

/-- Bilinear filtering of a 2-vector field, componentwise. -/
def bilinearSampleV (W H : ℕ) (v : VField) (uv : ℚ × ℚ) : ℚ × ℚ :=
  (bilinearSample W H (fun c => (v c).1) uv,
   bilinearSample W H (fun c => (v c).2) uv)

/-! ## Stage kernels (from `kernels.ts`) -/

/-- Kernel `brushFn`: per cell, if `distSq < radiusSq` then
`weight = max(0, 1 - distSq/radius²)`, `force = forceScale·weight·delta`,
`ink = inkAmount·weight`; otherwise force and ink stay `0`.
Returns `(force, ink)` as stored to `forceDst` / `inkDst`. -/
def brushFn (pos : Coord) (delta : ℚ × ℚ) (radius forceScale inkAmount : ℚ)
    (c : Coord) : (ℚ × ℚ) × ℚ :=
  let dx : ℚ := (c.1 : ℚ) - (pos.1 : ℚ)
  let dy : ℚ := (c.2 : ℚ) - (pos.2 : ℚ)
  let distSq := dx * dx + dy * dy
  let radiusSq := radius * radius
  if distSq < radiusSq then
    let weight := max 0 (1 - distSq / radiusSq)
    ((forceScale * weight * delta.1, forceScale * weight * delta.2),
      inkAmount * weight)
  else ((0, 0), 0)

/-- Kernel `addForcesFn`: adds `dt` times the force to the velocity. -/
def addForcesFn (dt : ℚ) (src force : VField) (c : Coord) : ℚ × ℚ :=
  ((src c).1 + dt * (force c).1, (src c).2 + dt * (force c).2)

/-- Kernel `addInkFn`: `dst = add + src` (scalar channel). -/
def addInkFn (src add : Field) (c : Coord) : ℚ :=
  add c + src c

/-- Kernel `advectFn`: semi-Lagrangian backtrace to `p − dt·v(p)`, clamped into
`[-0.5, dims−0.5]`, normalize, bilinearly resample the source velocity; when
`enableBoundary` is set and the cell satisfies the border test
(`coords < 1` or `coords ≥ dims − 1` in either component), store `(0,0)`. -/
def advectFn (W H : ℕ) (dt : ℚ) (enableBoundary : Bool) (src : VField)
    (c : Coord) : ℚ × ℚ :=
  let oldVel := src c
  let oldCoords : ℚ × ℚ :=
    ((c.1 : ℚ) - dt * oldVel.1, (c.2 : ℚ) - dt * oldVel.2)
  let oldCoordsClamped : ℚ × ℚ :=
    (clampQ (-(1/2)) ((W : ℚ) - 1/2) oldCoords.1,
     clampQ (-(1/2)) ((H : ℚ) - 1/2) oldCoords.2)
  let uv : ℚ × ℚ :=
    ((oldCoordsClamped.1 + 1/2) / (W : ℚ), (oldCoordsClamped.2 + 1/2) / (H : ℚ))
  let sampled := bilinearSampleV W H src uv
  let isBorder : Prop :=
    c.1 < 1 ∨ c.2 < 1 ∨ (W : ℤ) - 1 ≤ c.1 ∨ (H : ℤ) - 1 ≤ c.2
  if isBorder ∧ enableBoundary = true then (0, 0) else sampled

/-- Kernel `diffusionFn`: one Jacobi relaxation step,
`α = viscosity·dt`, `β = 1/(4+α)`,
`out = β·((left+right)+(up+down) + α·in)` with clamped neighbors. -/
def diffusionFn (W H : ℕ) (dt viscosity : ℚ) (f : VField) (c : Coord) :
    ℚ × ℚ :=
  let n := getNeighbors W H c
  let left := f n.1
  let up := f n.2.1
  let right := f n.2.2.1
  let down := f n.2.2.2
  let alpha := viscosity * dt
  let beta := 1 / (4 + alpha)
  (beta * ((left.1 + right.1) + (up.1 + down.1) + alpha * (f c).1),
   beta * ((left.2 + right.2) + (up.2 + down.2) + alpha * (f c).2))

/-- Kernel `divergenceFn`: `div = 0.5·(right.x − left.x + (down.y − up.y))` with
clamped neighbors. -/
def divergenceFn (W H : ℕ) (v : VField) (c : Coord) : ℚ :=
  let n := getNeighbors W H c
  let left := v n.1
  let up := v n.2.1
  let right := v n.2.2.1
  let down := v n.2.2.2
  (1/2) * (right.1 - left.1 + (down.2 - up.2))

/-- Kernel `pressureFn`: one pressure-Jacobi step, the new pressure being
`0.25·(left + right + up + down − div)` with clamped neighbors. -/
def pressureFn (W H : ℕ) (x b : Field) (c : Coord) : ℚ :=
  let n := getNeighbors W H c
  (1/4) * (x n.1 + x n.2.2.1 + x n.2.1 + x n.2.2.2 - b c)

/-- Kernel `projectFn`: `grad = 0.5·(right.p − left.p, down.p − up.p)` and
the new velocity is `v − grad`. -/
def projectFn (W H : ℕ) (v : VField) (p : Field) (c : Coord) : ℚ × ℚ :=
  let n := getNeighbors W H c
  let grad : ℚ × ℚ :=
    ((1/2) * (p n.2.2.1 - p n.1), (1/2) * (p n.2.2.2 - p n.2.1))
  ((v c).1 - grad.1, (v c).2 - grad.2)

/-- Kernel `advectScalarFn`: the same backtrace/clamp/bilinear-resample as `advectFn`
applied to the scalar ink field, transported by `vel` (no border handling). -/
def advectScalarFn (W H : ℕ) (dt : ℚ) (vel : VField) (src : Field)
    (c : Coord) : ℚ :=
  let v := vel c
  let oldCoords : ℚ × ℚ :=
    ((c.1 : ℚ) - dt * v.1, (c.2 : ℚ) - dt * v.2)
  let clamped : ℚ × ℚ :=
    (clampQ (-(1/2)) ((W : ℚ) - 1/2) oldCoords.1,
     clampQ (-(1/2)) ((H : ℚ) - 1/2) oldCoords.2)
  let uv : ℚ × ℚ :=
    ((clamped.1 + 1/2) / (W : ℚ), (clamped.2 + 1/2) / (H : ℚ))
  bilinearSample W H src uv

/-! ## Double buffers and simulation state (from `StableFluids.tsx`) -/

/-- The `DoubleBuffer<T>` class: `buffers: [T, T]` plus a mutable `index`.
`buffers[i]` for `i ∈ {0,1}` is modelled by `get`/`set` below. -/
structure DoubleBuffer (T : Type) where
  bufferA : T
  bufferB : T
  index : ℕ

namespace DoubleBuffer

variable {T : Type}

/-- Access `buffers[i]` (the index is always 0 or 1 in the source; `% 2` totalises). -/
def get (b : DoubleBuffer T) (i : ℕ) : T :=
  if i % 2 = 0 then b.bufferA else b.bufferB

/-- Write `buffers[i] := v`. -/
def set (b : DoubleBuffer T) (i : ℕ) (v : T) : DoubleBuffer T :=
  if i % 2 = 0 then { b with bufferA := v } else { b with bufferB := v }

/-- Accessor `current`, returning `buffers[index]`. -/
def current (b : DoubleBuffer T) : T := b.get b.index

/-- Accessor `currentIndex`, returning `index`. -/
def currentIndex (b : DoubleBuffer T) : ℕ := b.index

/-- Method `swap`, which xors `index` with 1. -/
def swap (b : DoubleBuffer T) : DoubleBuffer T :=
  { b with index := b.index ^^^ 1 }

/-- Method `setCurrent`, which assigns `index`. -/
def setCurrent (b : DoubleBuffer T) (i : ℕ) : DoubleBuffer T :=
  { b with index := i }

end DoubleBuffer

/-- The textures owned by `createScene`, wrapped in their double buffers. -/
structure SimState where
  velBuffer : DoubleBuffer VField
  inkBuffer : DoubleBuffer Field
  pressureBuffer : DoubleBuffer Field
  forceTex : VField
  newInkTex : Field
  divergenceTex : Field

/-- The tunable simulation parameters read each frame
(`params.dt`, `params.viscosity`, `params.jacobiIter`, `enableBoundary`). -/
structure SimParams where
  dt : ℚ
  viscosity : ℚ
  jacobiIter : ℕ
  enableBoundary : Bool

/-- The brush state polled from `brushInfo` at frame start. -/
structure FrameInput where
  isDown : Bool
  pos : Coord
  delta : ℚ × ℚ

/-- Frame step 1.  If `isDown`: dispatch `brushFn` (writes `forceTex` and
`newInkTex`), then `addInkFn` through `addInkBindGroups[i]`
(src `inkTex[i]`, dst `inkTex[1-i]`) followed by `inkBuffer.swap()`, then
`addForcesFn` through `addForceBindGroups[j]` (src `velTex[j]`,
dst `velTex[1-j]`) with no swap.  Else: `velBuffer.setCurrent(0)`. -/
def stageBrush (W : ℕ) (dt : ℚ) (inp : FrameInput) (s : SimState) : SimState :=
  if inp.isDown then
    let force : VField := fun c =>
      (brushFn inp.pos inp.delta (brushRadius W) FORCE_SCALE INK_AMOUNT c).1
    let newInk : Field := fun c =>
      (brushFn inp.pos inp.delta (brushRadius W) FORCE_SCALE INK_AMOUNT c).2
    let s1 : SimState := { s with forceTex := force, newInkTex := newInk }
    let i := s1.inkBuffer.index
    let s2 : SimState :=
      { s1 with inkBuffer :=
          ((s1.inkBuffer.set (1 - i)
            (addInkFn (s1.inkBuffer.get i) s1.newInkTex))).swap }
    let j := s2.velBuffer.index
    { s2 with velBuffer :=
        s2.velBuffer.set (1 - j) (addForcesFn dt (s2.velBuffer.get j) s2.forceTex) }
  else
    { s with velBuffer := s.velBuffer.setCurrent 0 }

/-- Frame step 2.  `advectBindGroups[i]` has src `velTex[1-i]` and dst
`velTex[i]`; the dispatch uses `i = velBuffer.currentIndex` and does not swap. -/
def stageAdvect (W H : ℕ) (dt : ℚ) (eb : Bool) (s : SimState) : SimState :=
  let i := s.velBuffer.index
  { s with velBuffer :=
      s.velBuffer.set i (advectFn W H dt eb (s.velBuffer.get (1 - i))) }

/-- One diffusion-loop iteration: `diffusionBindGroups[i]` reads `velTex[i]`,
writes `velTex[1-i]`, then `velBuffer.swap()`. -/
def diffuseStep (W H : ℕ) (dt viscosity : ℚ) (b : DoubleBuffer VField) :
    DoubleBuffer VField :=
  (b.set (1 - b.index) (diffusionFn W H dt viscosity (b.get b.index))).swap

/-- Frame step 3: the diffusion Jacobi loop, `k` iterations. -/
def diffusionLoop (W H : ℕ) (dt viscosity : ℚ) :
    ℕ → DoubleBuffer VField → DoubleBuffer VField
  | 0, b => b
  | k + 1, b => diffusionLoop W H dt viscosity k (diffuseStep W H dt viscosity b)

/-- Frame step 3 on the whole state. -/
def stageDiffuse (W H : ℕ) (dt viscosity : ℚ) (k : ℕ) (s : SimState) :
    SimState :=
  { s with velBuffer := diffusionLoop W H dt viscosity k s.velBuffer }

/-- Frame step 4: `divergenceBindGroups[velBuffer.currentIndex]` reads the
current velocity texture and writes the single divergence texture. -/
def stageDivergence (W H : ℕ) (s : SimState) : SimState :=
  { s with divergenceTex := divergenceFn W H (s.velBuffer.get s.velBuffer.index) }

/-- One pressure-loop iteration: `pressureBindGroups[i]` reads
`pressureTex[i]` and the divergence texture, writes `pressureTex[1-i]`,
then `pressureBuffer.swap()`. -/
def pressureStep (W H : ℕ) (b : Field) (pb : DoubleBuffer Field) :
    DoubleBuffer Field :=
  (pb.set (1 - pb.index) (pressureFn W H (pb.get pb.index) b)).swap

/-- The pressure Jacobi loop, `k` iterations. -/
def pressureLoop (W H : ℕ) (b : Field) :
    ℕ → DoubleBuffer Field → DoubleBuffer Field
  | 0, pb => pb
  | k + 1, pb => pressureLoop W H b k (pressureStep W H b pb)

/-- Frame step 5: `pressureBuffer.setCurrent(0)` then the pressure loop. -/
def stagePressure (W H : ℕ) (k : ℕ) (s : SimState) : SimState :=
  { s with pressureBuffer :=
      pressureLoop W H s.divergenceTex k (s.pressureBuffer.setCurrent 0) }

/-- Frame step 6: `projectBindGroups[velIdx][pIdx]` reads `velTex[velIdx]` and
`pressureTex[pIdx]`, writes `velTex[1-velIdx]`; then `velBuffer.swap()`. -/
def stageProject (W H : ℕ) (s : SimState) : SimState :=
  let i := s.velBuffer.index
  { s with velBuffer :=
      (s.velBuffer.set (1 - i)
        (projectFn W H (s.velBuffer.get i)
          (s.pressureBuffer.get s.pressureBuffer.index))).swap }

/-- Frame step 7: `advectInkBindGroups[velIdx][inkIdx]` reads `velTex[velIdx]`
and `inkTex[inkIdx]`, writes `inkTex[1-inkIdx]`; then `inkBuffer.swap()`. -/
def stageAdvectInk (W H : ℕ) (dt : ℚ) (s : SimState) : SimState :=
  let vi := s.velBuffer.index
  let ii := s.inkBuffer.index
  { s with inkBuffer :=
      (s.inkBuffer.set (1 - ii)
        (advectScalarFn W H dt (s.velBuffer.get vi) (s.inkBuffer.get ii))).swap }

/-- The per-frame `loop()` body of `createScene`, steps 1–7 in source order
(step 8, rendering, reads the resulting state and is modelled separately). -/
def loop (W H : ℕ) (prms : SimParams) (inp : FrameInput) (s : SimState) :
    SimState :=
  stageAdvectInk W H prms.dt
    (stageProject W H
      (stagePressure W H prms.jacobiIter
        (stageDivergence W H
          (stageDiffuse W H prms.dt prms.viscosity prms.jacobiIter
            (stageAdvect W H prms.dt prms.enableBoundary
              (stageBrush W prms.dt inp s))))))

/-- Iterated frames driven by a stream of per-frame brush inputs. -/
def advanceFrames (W H : ℕ) (prms : SimParams) (inputs : ℕ → FrameInput) :
    ℕ → SimState → SimState
  | 0, s => s
  | n + 1, s => advanceFrames W H prms inputs n (loop W H prms (inputs n) s)

/-- The three display modes (ink, velocity, image) of the compositor. -/
inductive DisplayMode
  | ink
  | velocity
  | image

/-- The render pass binds `renderBindGroup[inkBuffer.currentIndex]` — in every
display mode the bind-group array is indexed by the ink buffer index. -/
def renderBindIndex (s : SimState) : ℕ := s.inkBuffer.currentIndex

/-- The texture the fragment shader samples as `result`:
`inkTex[idx]` in `ink`/`image` mode and `velTex[idx]` in `velocity` mode,
with `idx = inkBuffer.currentIndex` (see the draw call in `loop()`). -/
def renderVelocitySource (s : SimState) : VField :=
  s.velBuffer.get (renderBindIndex s)

/-- Which velocity texture (0 or 1) `velocity` mode samples. -/
def renderVelocitySourceIndex (s : SimState) : ℕ := renderBindIndex s % 2

/-- Which velocity texture (0 or 1) holds the current (post-projection)
velocity at render time. -/
def currentVelocityIndex (s : SimState) : ℕ := s.velBuffer.index % 2

/-- The all-zero vector field (WebGPU textures are zero-initialised). -/
def zeroVField : VField := fun _ => (0, 0)

/-- The all-zero scalar field. -/
def zeroField : Field := fun _ => 0

/-- The freshly constructed scene: all textures zero, all indices 0. -/
def initState : SimState :=
  { velBuffer := ⟨zeroVField, zeroVField, 0⟩
    inkBuffer := ⟨zeroField, zeroField, 0⟩
    pressureBuffer := ⟨zeroField, zeroField, 0⟩
    forceTex := zeroVField
    newInkTex := zeroField
    divergenceTex := zeroField }

/-- The default parameters from `params.ts`:
`dt = 0.6`, `viscosity = 0.00001`, `jacobiIter = 10`, `enableBoundary: true`. -/
def defaultParams : SimParams :=
  { dt := 3/5, viscosity := 1/100000, jacobiIter := 10, enableBoundary := true }

/-- A frame with the pointer up. -/
def noInput : FrameInput := { isDown := false, pos := (0, 0), delta := (0, 0) }

/-- All grid cells, for finite sums over the domain. -/
def gridCells (W H : ℕ) : List Coord :=
  (List.range W).flatMap fun x =>
    (List.range H).map fun y => ((x : ℤ), (y : ℤ))

/-- Squared L2 norm of a scalar field over the grid. -/
def divNormSq (W H : ℕ) (f : Field) : ℚ :=
  ((gridCells W H).map fun c => f c * f c).sum

/-! ## Specification-side definitions (for refinement comparisons) -/

/-- Border predicate of the spec: a cell within a 1-cell margin of any
domain edge. -/
def isBorderCell (W H : ℕ) (c : Coord) : Prop :=
  c.1 = 0 ∨ c.1 = (W : ℤ) - 1 ∨ c.2 = 0 ∨ c.2 = (H : ℤ) - 1

instance (W H : ℕ) (c : Coord) : Decidable (isBorderCell W H c) := by
  unfold isBorderCell; infer_instance

/-- The plain advected (backtraced, clamped, bilinearly resampled) velocity
value, before any boundary handling: the value the spec says a non-border
cell receives unchanged. -/
def advectBacktraceValue (W H : ℕ) (dt : ℚ) (src : VField) (c : Coord) :
    ℚ × ℚ :=
  let oldVel := src c
  let oldCoords : ℚ × ℚ :=
    ((c.1 : ℚ) - dt * oldVel.1, (c.2 : ℚ) - dt * oldVel.2)
  let oldCoordsClamped : ℚ × ℚ :=
    (clampQ (-(1/2)) ((W : ℚ) - 1/2) oldCoords.1,
     clampQ (-(1/2)) ((H : ℚ) - 1/2) oldCoords.2)
  let uv : ℚ × ℚ :=
    ((oldCoordsClamped.1 + 1/2) / (W : ℚ), (oldCoordsClamped.2 + 1/2) / (H : ℚ))
  bilinearSampleV W H src uv

/-- Squared distance from the brush position to a cell. -/
def brushDistSq (pos c : Coord) : ℚ :=
  ((c.1 : ℚ) - (pos.1 : ℚ)) * ((c.1 : ℚ) - (pos.1 : ℚ)) +
    ((c.2 : ℚ) - (pos.2 : ℚ)) * ((c.2 : ℚ) - (pos.2 : ℚ))

/-- The injected brush weight of the spec: `max(0, 1 - distSq/r²)`. -/
def brushWeight (pos : Coord) (r : ℚ) (c : Coord) : ℚ :=
  max 0 (1 - brushDistSq pos c / (r * r))

/-- One Jacobi diffusion iteration as the spec states it:
`α = viscosity·dt`, `β = 1/(4+α)`, and the new value is
`β·(left + right + up + down + α·v)`, the four axis-aligned neighbors
being clamped at the domain edge. -/
def diffuseJacobiSpec (W H : ℕ) (dt viscosity : ℚ) (f : VField) (c : Coord) :
    ℚ × ℚ :=
  let alpha := viscosity * dt
  let beta := 1 / (4 + alpha)
  let l := f (clampCoord W H (c.1 - 1, c.2))
  let r := f (clampCoord W H (c.1 + 1, c.2))
  let u := f (clampCoord W H (c.1, c.2 - 1))
  let dn := f (clampCoord W H (c.1, c.2 + 1))
  (beta * (l.1 + r.1 + u.1 + dn.1 + alpha * (f c).1),
   beta * (l.2 + r.2 + u.2 + dn.2 + alpha * (f c).2))

/-! ## Concrete instances used by witnesses and counterexamples -/

/-- An input stream holding the pointer up on every frame. -/
def constNoInput : ℕ → FrameInput := fun _ => noInput

/-- The state after one pointer-up frame on a 3×3 grid. -/
def oneFrame : SimState := loop 3 3 defaultParams noInput initState

/-- The state after two pointer-up frames on a 3×3 grid. -/
def twoFrames : SimState := loop 3 3 defaultParams noInput oneFrame

/-- A constant unit-x velocity field. -/
def constXVel : VField := fun _ => (1, 0)

/-- A state whose secondary velocity texture `velTex[1]` holds stale nonzero
data while `velTex[0]` is zero (all indices 0). -/
def stateWithStaleB : SimState :=
  { initState with velBuffer := ⟨zeroVField, constXVel, 0⟩ }

/-- A 2×1 velocity field with constant nonzero discrete divergence:
`(0,0)` at cell 0 and `(2,0)` at cell 1. -/
def constantDivVel : VField := fun c => if c.1 = 1 then (2, 0) else (0, 0)

/-- The pressure field obtained from one Jacobi iteration (zero initial
pressure) against the divergence of `constantDivVel` on the 2×1 grid. -/
def constantDivPressure : Field :=
  (pressureLoop 2 1 (divergenceFn 2 1 constantDivVel) 1
    ⟨zeroField, zeroField, 0⟩).current

/-- A 3×3 velocity field with a unit x-impulse at the centre cell. -/
def impulseVel : VField := fun c => if c = (1, 1) then (1, 0) else (0, 0)

/-- The pressure field obtained from one Jacobi iteration (zero initial
pressure) against the divergence of `impulseVel` on the 3×3 grid. -/
def impulsePressure : Field :=
  (pressureLoop 3 3 (divergenceFn 3 3 impulseVel) 1
    ⟨zeroField, zeroField, 0⟩).current

/-! ## Helper lemmas -/

/-- Writing a buffer never changes the double-buffer index. -/
theorem DoubleBuffer.set_index {T : Type} (b : DoubleBuffer T) (i : ℕ) (v : T) :
    (b.set i v).index = b.index := by
  unfold DoubleBuffer.set; split <;> rfl

/-- A diffusion-loop iteration xors the index with 1. -/
theorem diffuseStep_index (W H : ℕ) (dt viscosity : ℚ)
    (b : DoubleBuffer VField) :
    (diffuseStep W H dt viscosity b).index = b.index ^^^ 1 := by
  unfold diffuseStep DoubleBuffer.swap
  rw [DoubleBuffer.set_index]

/-- Flipping the low bit once per iteration accumulates to the parity of the
iteration count. -/
theorem xor_one_iter (i k : ℕ) : (i ^^^ 1) ^^^ (k % 2) = i ^^^ ((k + 1) % 2) := by
  rw [Nat.xor_assoc]
  rcases Nat.mod_two_eq_zero_or_one k with h | h <;>
    simp [h, Nat.add_mod]

/-- The diffusion Jacobi loop flips the index parity once per iteration. -/
theorem diffusionLoop_index (W H : ℕ) (dt viscosity : ℚ) (k : ℕ)
    (b : DoubleBuffer VField) :
    (diffusionLoop W H dt viscosity k b).index = b.index ^^^ (k % 2) := by
  induction k generalizing b with
  | zero => simp [diffusionLoop]
  | succ k ih =>
      rw [diffusionLoop, ih, diffuseStep_index, xor_one_iter]

/-- Unfolding of `advectFn`: the store is the boundary select applied to the
plain backtraced sample. -/
theorem advectFn_eq (W H : ℕ) (dt : ℚ) (eb : Bool) (src : VField) (c : Coord) :
    advectFn W H dt eb src c =
      if (c.1 < 1 ∨ c.2 < 1 ∨ (W : ℤ) - 1 ≤ c.1 ∨ (H : ℤ) - 1 ≤ c.2)
          ∧ eb = true
      then (0, 0) else advectBacktraceValue W H dt src c := rfl

/-- Unfolding of `brushFn` in terms of the spec weight `brushWeight`. -/
theorem brushFn_eq (pos c : Coord) (delta : ℚ × ℚ) (r fS iA : ℚ) :
    brushFn pos delta r fS iA c =
      if brushDistSq pos c < r * r then
        ((fS * brushWeight pos r c * delta.1, fS * brushWeight pos r c * delta.2),
          iA * brushWeight pos r c)
      else ((0, 0), 0) := rfl

/-! ## Claim theorems -/

/-- C2: with `enableBoundary = true`, the Advect stage writes exactly `(0,0)`
at every border cell (1-cell margin of any domain edge), and at every
non-border in-grid cell it writes the backtraced, bilinearly sampled value
unchanged. -/
theorem C2_advect_boundary_noslip (W H : ℕ) (dt : ℚ) (src : VField) (c : Coord)
    (hc : inGrid W H c) :
    (isBorderCell W H c → advectFn W H dt true src c = (0, 0))
    ∧ (¬ isBorderCell W H c →
        advectFn W H dt true src c = advectBacktraceValue W H dt src c) := by
  obtain ⟨h0, h1, h2, h3⟩ := hc
  constructor
  · intro hb
    rw [advectFn_eq, if_pos]
    refine ⟨?_, rfl⟩
    unfold isBorderCell at hb
    omega
  · intro hnb
    rw [advectFn_eq, if_neg]
    rintro ⟨hd, -⟩
    unfold isBorderCell at hnb
    omega

/-- Witness for C2 at the corner `(0,0)` (border, zeroed) and the interior
cell `(1,1)` (non-border, plain advected value) of a 3×3 grid. -/
theorem C2_advect_boundary_noslip_witness :
    advectFn 3 3 (3/5) true zeroVField ((0 : ℤ), (0 : ℤ)) = (0, 0)
    ∧ advectFn 3 3 (3/5) true zeroVField ((1 : ℤ), (1 : ℤ))
        = advectBacktraceValue 3 3 (3/5) zeroVField ((1 : ℤ), (1 : ℤ)) :=
  ⟨(C2_advect_boundary_noslip 3 3 (3/5) zeroVField ((0 : ℤ), (0 : ℤ))
      (by decide)).1 (by decide),
   (C2_advect_boundary_noslip 3 3 (3/5) zeroVField ((1 : ℤ), (1 : ℤ))
      (by decide)).2 (by decide)⟩

/-- C6: for radius `r > 0` the brush stores
`force = forceScale·weight·delta` and `ink = inkAmount·weight` with
`weight = max(0, 1 - distSq/r²)` at every cell; at squared distance at least
`r²` both stores are zero, and at the centre the weight is `1` so the full
`forceScale·delta` and `inkAmount` are stored. -/
theorem C6_brush_weight_boundary (pos c : Coord) (delta : ℚ × ℚ)
    (r fS iA : ℚ) (hr : 0 < r) :
    brushFn pos delta r fS iA c
      = ((fS * brushWeight pos r c * delta.1,
          fS * brushWeight pos r c * delta.2),
         iA * brushWeight pos r c)
    ∧ (r * r ≤ brushDistSq pos c → brushFn pos delta r fS iA c = ((0, 0), 0))
    ∧ brushFn pos delta r fS iA pos = ((fS * delta.1, fS * delta.2), iA) := by
  have hr2 : (0 : ℚ) < r * r := mul_pos hr hr
  have hzero : ∀ x : Coord, r * r ≤ brushDistSq pos x → brushWeight pos r x = 0 := by
    intro x hx
    have hle : 1 - brushDistSq pos x / (r * r) ≤ 0 := by
      rw [sub_nonpos, le_div_iff₀ hr2]
      linarith
    exact max_eq_left hle
  refine ⟨?_, ?_, ?_⟩
  · rw [brushFn_eq]
    by_cases h : brushDistSq pos c < r * r
    · rw [if_pos h]
    · rw [if_neg h, hzero c (not_lt.mp h)]
      norm_num
  · intro hd
    rw [brushFn_eq, if_neg (not_lt.mpr hd)]
  · have hd0 : brushDistSq pos pos = 0 := by simp [brushDistSq]
    have hw : brushWeight pos r pos = 1 := by
      rw [brushWeight, hd0]
      norm_num
    rw [brushFn_eq, if_pos (by rw [hd0]; exact hr2), hw]
    norm_num

/-- Witness for C6 with radius 1: zero stores at squared distance 25, full
stores at the centre. -/
theorem C6_brush_weight_boundary_witness :
    brushFn ((0 : ℤ), (0 : ℤ)) ((2 : ℚ), (3 : ℚ)) 1 (3/5) (1/50)
        ((5 : ℤ), (0 : ℤ)) = ((0, 0), 0)
    ∧ brushFn ((0 : ℤ), (0 : ℤ)) ((2 : ℚ), (3 : ℚ)) 1 (3/5) (1/50)
        ((0 : ℤ), (0 : ℤ)) = ((3/5 * 2, 3/5 * 3), 1/50) :=
  ⟨(C6_brush_weight_boundary ((0 : ℤ), (0 : ℤ)) ((5 : ℤ), (0 : ℤ))
      ((2 : ℚ), (3 : ℚ)) 1 (3/5) (1/50) (by norm_num)).2.1
      (by norm_num [brushDistSq]),
   (C6_brush_weight_boundary ((0 : ℤ), (0 : ℤ)) ((0 : ℤ), (0 : ℤ))
      ((2 : ℚ), (3 : ℚ)) 1 (3/5) (1/50) (by norm_num)).2.2⟩

/-- C4: entering the diffusion Jacobi loop at index `i ∈ {0,1}`, after `k`
iterations (one `swap()` per iteration) the current index is `i XOR (k mod 2)`;
and `swap()` itself only flips the index bit, leaving both buffer contents
untouched. -/
theorem C4_buffer_parity (W H : ℕ) (dt viscosity : ℚ) (k : ℕ)
    (b c : DoubleBuffer VField) (h : b.index = 0 ∨ b.index = 1) :
    (diffusionLoop W H dt viscosity k b).index = b.index ^^^ (k % 2)
    ∧ c.swap.index = c.index ^^^ 1
    ∧ c.swap.bufferA = c.bufferA
    ∧ c.swap.bufferB = c.bufferB :=
  ⟨diffusionLoop_index W H dt viscosity k b, rfl, rfl, rfl⟩

/-- Witness for C4 at `k ∈ {0, 1, 2, 10}`, entering at index 1 (and 0 for
`k = 2`). -/
theorem C4_buffer_parity_witness :
    ((diffusionLoop 3 3 (3/5) (1/100000) 0 ⟨zeroVField, zeroVField, 1⟩).index
        = 1 ^^^ (0 % 2)
      ∧ (DoubleBuffer.swap ⟨zeroVField, constXVel, 0⟩).index = 0 ^^^ 1
      ∧ (DoubleBuffer.swap ⟨zeroVField, constXVel, 0⟩).bufferA = zeroVField
      ∧ (DoubleBuffer.swap ⟨zeroVField, constXVel, 0⟩).bufferB = constXVel)
    ∧ (diffusionLoop 3 3 (3/5) (1/100000) 1 ⟨zeroVField, zeroVField, 1⟩).index
        = 1 ^^^ (1 % 2)
    ∧ (diffusionLoop 3 3 (3/5) (1/100000) 2 ⟨zeroVField, zeroVField, 0⟩).index
        = 0 ^^^ (2 % 2)
    ∧ (diffusionLoop 3 3 (3/5) (1/100000) 10 ⟨zeroVField, zeroVField, 1⟩).index
        = 1 ^^^ (10 % 2) :=
  ⟨C4_buffer_parity 3 3 (3/5) (1/100000) 0 ⟨zeroVField, zeroVField, 1⟩
      ⟨zeroVField, constXVel, 0⟩ (Or.inr rfl),
   (C4_buffer_parity 3 3 (3/5) (1/100000) 1 ⟨zeroVField, zeroVField, 1⟩
      ⟨zeroVField, constXVel, 0⟩ (Or.inr rfl)).1,
   (C4_buffer_parity 3 3 (3/5) (1/100000) 2 ⟨zeroVField, zeroVField, 0⟩
      ⟨zeroVField, constXVel, 0⟩ (Or.inl rfl)).1,
   (C4_buffer_parity 3 3 (3/5) (1/100000) 10 ⟨zeroVField, zeroVField, 1⟩
      ⟨zeroVField, constXVel, 0⟩ (Or.inr rfl)).1⟩

/-- C9: one Diffuse iteration equals the spec formula
`β·(left + right + up + down + α·v)` with `α = viscosity·dt`,
`β = 1/(4+α)` and edge-clamped neighbors; and the scheduler runs exactly
`jacobiIter` such iterations, each writing the non-current buffer from the
current one and swapping afterwards. -/
theorem C9_diffusion_stage (W H : ℕ) (dt viscosity : ℚ) (f : VField)
    (c : Coord) (k : ℕ) (s : SimState) (b : DoubleBuffer VField) :
    diffusionFn W H dt viscosity f c = diffuseJacobiSpec W H dt viscosity f c
    ∧ (stageDiffuse W H dt viscosity k s).velBuffer
        = diffusionLoop W H dt viscosity k s.velBuffer
    ∧ diffusionLoop W H dt viscosity 0 b = b
    ∧ diffusionLoop W H dt viscosity (k + 1) b
        = diffusionLoop W H dt viscosity k (diffuseStep W H dt viscosity b)
    ∧ diffuseStep W H dt viscosity b
        = (b.set (1 - b.index)
            (diffusionFn W H dt viscosity (b.get b.index))).swap := by
  refine ⟨?_, rfl, rfl, rfl, rfl⟩
  unfold diffusionFn diffuseJacobiSpec getNeighbors
  dsimp only
  rw [Prod.ext_iff]
  constructor <;> dsimp only <;> ring

/-- C8 counterexample: zero and negative canvas dimensions are clamped to a
1-texel grid, and a non-positive iteration count just runs the Jacobi loop
zero times — construction does not fail. -/
theorem C8_counterexample :
    simDim 0 = 1 ∧ simDim (-3) = 1 ∧ jacobiRuns (-5) = 0 := by
  refine ⟨?_, ?_, rfl⟩ <;> norm_num [simDim, SIMULATION_QUALITY]

/-- C8 (amended): initialization never fails; the grid dimension is clamped
to at least 1 and a non-positive `jacobiIterations` runs zero loop
iterations. -/
theorem C8_amended_clamped_construction (w k : ℤ) (hk : k ≤ 0) :
    1 ≤ simDim w ∧ jacobiRuns k = 0 :=
  ⟨le_max_left _ _, Int.toNat_of_nonpos hk⟩

/-- Witness for the amended C8 at `width = 0`, `jacobiIterations = -1`. -/
theorem C8_amended_clamped_construction_witness :
    1 ≤ simDim 0 ∧ jacobiRuns (-1) = 0 :=
  C8_amended_clamped_construction 0 (-1) (by decide)

/-- C10: per frame the scheduler only resets the pressure double-buffer index
to 0 — `setCurrent 0` leaves both buffer contents unchanged — and the
resulting pressure buffers are exactly the Jacobi iterates started from the
contents the previous frame left behind (warm start, never cleared). -/
theorem C10_pressure_warm_start (W H : ℕ) (prms : SimParams) (inp : FrameInput)
    (s : SimState) :
    (loop W H prms inp s).pressureBuffer
      = pressureLoop W H
          (stageDivergence W H (stageDiffuse W H prms.dt prms.viscosity
            prms.jacobiIter (stageAdvect W H prms.dt prms.enableBoundary
              (stageBrush W prms.dt inp s)))).divergenceTex
          prms.jacobiIter
          ⟨s.pressureBuffer.bufferA, s.pressureBuffer.bufferB, 0⟩
    ∧ (s.pressureBuffer.setCurrent 0).bufferA = s.pressureBuffer.bufferA
    ∧ (s.pressureBuffer.setCurrent 0).bufferB = s.pressureBuffer.bufferB := by
  refine ⟨?_, rfl, rfl⟩
  cases inp with
  | mk d p δ => cases d <;> rfl

/-- C1 counterexample: after two pointer-up frames (default parameters,
reachable from the initial state), `velocity` display mode samples velocity
texture 0 while the current (post-projection) velocity sits in texture 1 —
the Render Compositor does not sample the current velocity buffer at every
parity. -/
theorem C1_counterexample :
    renderVelocitySourceIndex twoFrames = 0
    ∧ currentVelocityIndex twoFrames = 1 := by
  constructor <;> rfl

/-- C1 (amended): in `velocity` mode the Render Compositor samples the
velocity texture selected by the ink double-buffer index
(`renderBindGroup[inkBuffer.currentIndex]`); this is the current velocity
buffer exactly when the ink and velocity indices agree in parity at render
time. -/
theorem C1_amended_render_indexed_by_ink (s : SimState)
    (h : s.inkBuffer.index % 2 = s.velBuffer.index % 2) :
    renderVelocitySource s = s.velBuffer.get s.inkBuffer.currentIndex
    ∧ renderVelocitySource s = s.velBuffer.current := by
  refine ⟨rfl, ?_⟩
  unfold renderVelocitySource renderBindIndex DoubleBuffer.current
    DoubleBuffer.get DoubleBuffer.currentIndex
  rw [h]

/-- Witness for the amended C1: after one pointer-up frame both indices are 1,
and the sampled texture is the current velocity buffer. -/
theorem C1_amended_render_indexed_by_ink_witness :
    renderVelocitySource oneFrame
        = oneFrame.velBuffer.get oneFrame.inkBuffer.currentIndex
    ∧ renderVelocitySource oneFrame = oneFrame.velBuffer.current :=
  C1_amended_render_indexed_by_ink oneFrame rfl

/-- C5 counterexample: in a pointer-up frame the stale secondary velocity
buffer is not discarded unread — the Advect dispatch reads `velTex[1]`.  Two
states identical except for the secondary buffer content produce different
advected primary buffers. -/
theorem C5_counterexample :
    noInput.isDown = false
    ∧ stateWithStaleB.velBuffer.bufferA = initState.velBuffer.bufferA
    ∧ stateWithStaleB.velBuffer.index = initState.velBuffer.index
    ∧ (stageAdvect 3 3 (3/5) true
        (stageBrush 3 (3/5) noInput stateWithStaleB)).velBuffer.bufferA
        ((1 : ℤ), (1 : ℤ)) = (1, 0)
    ∧ (stageAdvect 3 3 (3/5) true
        (stageBrush 3 (3/5) noInput initState)).velBuffer.bufferA
        ((1 : ℤ), (1 : ℤ)) = (0, 0) := by
  refine ⟨rfl, rfl, rfl, ?_, ?_⟩ <;> with_unfolding_all rfl

/-- C5 (amended): in a pointer-up frame no brush, ink-injection or
force-addition stage runs (the state is unchanged except the velocity index
being reset to 0), and the Advect dispatch then reads the secondary buffer
`velTex[1]` as its source while overwriting `velTex[0]`. -/
theorem C5_amended_advect_reads_secondary (W H : ℕ) (dt : ℚ) (eb : Bool)
    (inp : FrameInput) (s : SimState) (h : inp.isDown = false) :
    stageBrush W dt inp s = { s with velBuffer := s.velBuffer.setCurrent 0 }
    ∧ (stageAdvect W H dt eb (stageBrush W dt inp s)).velBuffer.bufferA
        = advectFn W H dt eb s.velBuffer.bufferB
    ∧ (stageAdvect W H dt eb (stageBrush W dt inp s)).velBuffer.bufferB
        = s.velBuffer.bufferB
    ∧ (stageAdvect W H dt eb (stageBrush W dt inp s)).velBuffer.index = 0 := by
  cases inp with
  | mk d p δ =>
    cases d with
    | false => exact ⟨rfl, rfl, rfl, rfl⟩
    | true => exact Bool.noConfusion h

/-- Witness for the amended C5 on the 3×3 stale-secondary state. -/
theorem C5_amended_advect_reads_secondary_witness :
    stageBrush 3 (3/5) noInput stateWithStaleB
      = { stateWithStaleB with
            velBuffer := stateWithStaleB.velBuffer.setCurrent 0 }
    ∧ (stageAdvect 3 3 (3/5) true
        (stageBrush 3 (3/5) noInput stateWithStaleB)).velBuffer.bufferA
        = advectFn 3 3 (3/5) true stateWithStaleB.velBuffer.bufferB
    ∧ (stageAdvect 3 3 (3/5) true
        (stageBrush 3 (3/5) noInput stateWithStaleB)).velBuffer.bufferB
        = stateWithStaleB.velBuffer.bufferB
    ∧ (stageAdvect 3 3 (3/5) true
        (stageBrush 3 (3/5) noInput stateWithStaleB)).velBuffer.index = 0 :=
  C5_amended_advect_reads_secondary 3 3 (3/5) true noInput stateWithStaleB rfl

/-- C3 counterexample: on a 2×1 grid with velocities `(0,0)` and `(2,0)` the
pre-projection divergence is the nonzero constant 1 (a non-trivial input);
with `jacobiIterations = 1` the recomputed post-projection divergence has
exactly the same L2 norm — not a strictly smaller one. -/
theorem C3_counterexample :
    divNormSq 2 1 (divergenceFn 2 1 constantDivVel) = 2
    ∧ divNormSq 2 1
        (divergenceFn 2 1 (projectFn 2 1 constantDivVel constantDivPressure))
        = 2
    ∧ divNormSq 2 1 (divergenceFn 2 1 constantDivVel) ≠ 0
    ∧ ¬ divNormSq 2 1
        (divergenceFn 2 1 (projectFn 2 1 constantDivVel constantDivPressure))
        < divNormSq 2 1 (divergenceFn 2 1 constantDivVel) := by
  have h1 : divNormSq 2 1 (divergenceFn 2 1 constantDivVel) = 2 := by
    with_unfolding_all rfl
  have h2 : divNormSq 2 1
      (divergenceFn 2 1 (projectFn 2 1 constantDivVel constantDivPressure))
      = 2 := by
    with_unfolding_all rfl
  refine ⟨h1, h2, ?_, ?_⟩
  · rw [h1]; norm_num
  · rw [h1, h2]; exact lt_irrefl 2

/-- C3 (amended): divergence reduction holds on particular non-trivial
inputs though not all — on a 3×3 grid with a unit x-impulse at the centre
and `jacobiIterations = 1`, the post-projection divergence L2 norm is
strictly smaller than the pre-projection one. -/
theorem C3_amended_strict_decrease_instance :
    divNormSq 3 3 (divergenceFn 3 3 impulseVel) ≠ 0
    ∧ divNormSq 3 3
        (divergenceFn 3 3 (projectFn 3 3 impulseVel impulsePressure))
        < divNormSq 3 3 (divergenceFn 3 3 impulseVel) := by
  have h1 : divNormSq 3 3 (divergenceFn 3 3 impulseVel) = 1/2 := by
    with_unfolding_all rfl
  have h2 : divNormSq 3 3
      (divergenceFn 3 3 (projectFn 3 3 impulseVel impulsePressure))
      = 171/512 := by
    with_unfolding_all rfl
  rw [h1, h2]
  norm_num

/-- A double-buffered scalar field pair that is zero in both buffers. -/
def inkZero (b : DoubleBuffer Field) : Prop :=
  (∀ c, b.bufferA c = 0) ∧ (∀ c, b.bufferB c = 0)

/-- Reading either buffer of a zero pair gives zero. -/
theorem inkZero_get {b : DoubleBuffer Field} (h : inkZero b) (i : ℕ)
    (c : Coord) : b.get i c = 0 := by
  unfold DoubleBuffer.get
  split
  · exact h.1 c
  · exact h.2 c

/-- Writing a pointwise-zero field into either buffer keeps the pair zero. -/
theorem inkZero_set {b : DoubleBuffer Field} (h : inkZero b) {v : Field}
    (hv : ∀ c, v c = 0) (i : ℕ) : inkZero (b.set i v) := by
  unfold DoubleBuffer.set
  split
  · exact ⟨hv, h.2⟩
  · exact ⟨h.1, hv⟩

/-- Swapping preserves a zero pair (it moves no data). -/
theorem inkZero_swap {b : DoubleBuffer Field} (h : inkZero b) :
    inkZero b.swap := h

/-- Bilinear filtering of a pointwise-zero field is zero. -/
theorem bilinearSample_zero (W H : ℕ) (f : Field) (hf : ∀ c, f c = 0)
    (uv : ℚ × ℚ) : bilinearSample W H f uv = 0 := by
  unfold bilinearSample texelClamp
  simp [hf]

/-- Ink advection of a pointwise-zero ink field writes zero everywhere. -/
theorem advectScalarFn_zero (W H : ℕ) (dt : ℚ) (vel : VField) (src : Field)
    (hs : ∀ c, src c = 0) (c : Coord) : advectScalarFn W H dt vel src c = 0 := by
  unfold advectScalarFn
  exact bilinearSample_zero W H src hs _

/-- A pointer-up frame preserves an all-zero ink pair: the only stage writing
ink in such a frame is ink advection, whose output on a zero field is zero. -/
theorem loop_inkZero (W H : ℕ) (prms : SimParams) (inp : FrameInput)
    (s : SimState) (hd : inp.isDown = false) (h : inkZero s.inkBuffer) :
    inkZero (loop W H prms inp s).inkBuffer := by
  cases inp with
  | mk d p δ =>
    cases d with
    | true => exact Bool.noConfusion hd
    | false =>
      apply inkZero_swap
      apply inkZero_set h
      intro c
      exact advectScalarFn_zero W H prms.dt _ _ (fun x => inkZero_get h _ x) c

/-- C7: with the pointer up on every frame and both ink buffers zero, any
number of full frames leaves the ink field zero at every cell — no stage
spontaneously injects ink. -/
theorem C7_no_spontaneous_ink (W H : ℕ) (prms : SimParams)
    (inputs : ℕ → FrameInput) (N : ℕ) (s : SimState) (c : Coord)
    (hdown : ∀ n, (inputs n).isDown = false)
    (hA : ∀ x, s.inkBuffer.bufferA x = 0)
    (hB : ∀ x, s.inkBuffer.bufferB x = 0) :
    (advanceFrames W H prms inputs N s).inkBuffer.bufferA c = 0
    ∧ (advanceFrames W H prms inputs N s).inkBuffer.bufferB c = 0 := by
  have key : ∀ (N : ℕ) (s : SimState), inkZero s.inkBuffer →
      inkZero (advanceFrames W H prms inputs N s).inkBuffer := by
    intro N
    induction N with
    | zero => intro s hz; exact hz
    | succ n ih =>
        intro s hz
        exact ih (loop W H prms (inputs n) s)
          (loop_inkZero W H prms (inputs n) s (hdown n) hz)
  obtain ⟨a, b⟩ := key N s ⟨hA, hB⟩
  exact ⟨a c, b c⟩

/-- Witness for C7: two pointer-up frames from the freshly constructed scene
leave the ink at zero. -/
theorem C7_no_spontaneous_ink_witness :
    (advanceFrames 2 2 defaultParams constNoInput 2 initState).inkBuffer.bufferA
        ((0 : ℤ), (0 : ℤ)) = 0
    ∧ (advanceFrames 2 2 defaultParams constNoInput 2 initState).inkBuffer.bufferB
        ((0 : ℤ), (0 : ℤ)) = 0 :=
  C7_no_spontaneous_ink 2 2 defaultParams constNoInput 2 initState
    ((0 : ℤ), (0 : ℤ)) (fun _ => rfl) (fun _ => rfl) (fun _ => rfl)

end StableFluids
